import Mathlib

/-!
# Verification of the Pomodoro time-tracking core (`gestao_tempo.py`)

Shallow embedding of the session state machine (`PomodoroApp.start`,
`_tick`, `_finish_session`, `pause`, `reset_timer`) and the persistence
layer (`Database.add_project`, `add_subject`, `add_log`,
`summary_by_subject_range`, `summary_by_day`) of the repository
`gestao_tempo_pomodoro`, together with theorems settling the behavioural
claims about them.

Modelling conventions:
* Wall-clock instants are natural numbers counting whole seconds
  (`datetime.now()` values at second precision);
  `int((end - start).total_seconds())` becomes integer subtraction.
* Python `Optional[int]` fields become `Option Nat`; a Python truthiness
  test `if self.current_project_id` becomes `optTruthy` (`None` and `0`
  are falsy).
* The SQLite store is a record of lists with explicit `AUTOINCREMENT`
  counters.  ISO-8601 timestamps (`YYYY-MM-DDTHH:MM:SS`) are modelled as
  a calendar-date ordinal (`Nat`, since lexicographic order on ISO date
  strings coincides with date order) paired with a seconds-of-day
  component; SQLite's `DATE(start_time)` is projection onto the ordinal.
* Python exceptions (`ValueError`, `sqlite3.IntegrityError`) and the
  selection-required warning become explicit error values; an operation
  returns the (possibly unchanged) store together with the outcome.
-/

deriving instance DecidableEq for Except

/-- Python's `str.strip()`: the string with leading and trailing
whitespace removed, realised on the character list so that it evaluates
by kernel reduction. -/
def pyStrip (s : String) : String :=
  String.mk (((s.data.dropWhile Char.isWhitespace).reverse.dropWhile
    Char.isWhitespace).reverse)

/-- Error taxonomy of the persistence layer: `validation` is the
`ValueError` raised on an empty trimmed name, `referential` is the
`sqlite3.IntegrityError` raised when a foreign key (`PRAGMA foreign_keys
= ON`) references a missing parent, `storage` covers any other storage
failure. -/
inductive DBError where
  | validation
  | referential
  | storage
deriving DecidableEq, Repr

/-- The session-machine error: `start` refuses to run without a selected
project and subject (the "Seleção necessária" warning). -/
inductive SessionError where
  | selectionRequired
deriving DecidableEq, Repr

/-- The four values of `self.session` in `PomodoroApp`. -/
inductive Session where
  | Idle
  | Work
  | ShortBreak
  | LongBreak
deriving DecidableEq, Repr

/-- One row inserted through `Database.add_log` by the session machine:
project id, subject id, `current_start`, `end_time` (both second-precision
instants) and the computed duration. -/
structure LogEntry where
  project_id : Nat
  subject_id : Nat
  start_time : Nat
  end_time : Nat
  duration : Int
deriving DecidableEq, Repr

/-- Python truthiness of an `Optional[int]`: `None` and `0` are falsy. -/
def optTruthy : Option Nat → Bool
  | none => false
  | some n => n != 0

/-- The timer-relevant state of `PomodoroApp` (fields initialised in
`__init__`, lines 846-860), together with the configuration spinbox
values and the list of log rows the app has written through
`Database.add_log` (the store side effect of the machine). -/
structure PomodoroApp where
  work_minutes : Nat
  short_break_minutes : Nat
  long_break_minutes : Nat
  cycles_for_long_break : Nat
  session : Session
  remaining : Int
  completed_cycles : Nat
  current_start : Option Nat
  current_project_id : Option Nat
  current_subject_id : Option Nat
  is_running : Bool
  logs : List LogEntry
deriving DecidableEq, Repr

namespace PomodoroApp

/-- The initial state built by `PomodoroApp.__init__`: defaults
work=25, short=5, long=15, cycles=4, `session="Idle"`,
`remaining = work_minutes*60`, everything else cleared. -/
def init : PomodoroApp where
  work_minutes := 25
  short_break_minutes := 5
  long_break_minutes := 15
  cycles_for_long_break := 4
  session := Session.Idle
  remaining := 25 * 60
  completed_cycles := 0
  current_start := none
  current_project_id := none
  current_subject_id := none
  is_running := false
  logs := []

/-- The log-finalisation block shared verbatim by `_finish_session` and
`pause`: if `current_start` is set and the session is `Work`, compute
`duration = int((end_time - current_start).total_seconds())` and insert a
log row provided `duration > 0` and both `current_project_id` and
`current_subject_id` are truthy. -/
def finalize_log (st : PomodoroApp) (now : Nat) : PomodoroApp :=
  match st.current_start with
  | none => st
  | some cs =>
    if st.session = Session.Work then
      let duration : Int := (now : Int) - (cs : Int)
      if 0 < duration ∧ optTruthy st.current_project_id = true ∧
          optTruthy st.current_subject_id = true then
        { st with logs := st.logs ++
            [{ project_id := st.current_project_id.getD 0
               subject_id := st.current_subject_id.getD 0
               start_time := cs
               end_time := now
               duration := duration }] }
      else st
    else st

/-- The "Decide próxima sessão" block of `_finish_session` (lines
1244-1264), the cycle rule: a finished `Work` phase increments
`completed_cycles` and moves to `LongBreak` (resetting the counter) once
the incremented counter reaches `cycles_for_long_break`, otherwise to
`ShortBreak`; any other finished phase moves to `Work`.  `remaining` is
reloaded from the configuration of the new phase. -/
def next_phase (st : PomodoroApp) : PomodoroApp :=
  if st.session = Session.Work then
    if st.cycles_for_long_break ≤ st.completed_cycles + 1 then
      { st with session := Session.LongBreak
                remaining := ((st.long_break_minutes * 60 : Nat) : Int)
                completed_cycles := 0 }
    else
      { st with session := Session.ShortBreak
                remaining := ((st.short_break_minutes * 60 : Nat) : Int)
                completed_cycles := st.completed_cycles + 1 }
  else
    { st with session := Session.Work
              remaining := ((st.work_minutes * 60 : Nat) : Int) }

/-- `PomodoroApp._finish_session` (lines 1226-1266): stop running,
finalise the log, clear `current_start`, then apply the cycle rule.
(The trailing alert/auto-start prompt is the caller's decision and is
modelled by the caller invoking `start` again.) -/
def finish_session (st : PomodoroApp) (now : Nat) : PomodoroApp :=
  PomodoroApp.next_phase
    { ({ st with is_running := false }).finalize_log now with current_start := none }

/-- `PomodoroApp._tick` (lines 1180-1188), invoked once per wall-clock
second while running: a no-op when not running; finishes the session when
`remaining <= 0`; otherwise decrements `remaining` (and reschedules
itself, which the driver models by calling `tick` at successive
instants). -/
def tick (st : PomodoroApp) (now : Nat) : PomodoroApp :=
  if st.is_running = false then st
  else if st.remaining ≤ 0 then st.finish_session now
  else { st with remaining := st.remaining - 1 }

/-- `PomodoroApp.start` (lines 1150-1178).  `project_name`/`subject_name`
are the combobox texts; `project_lookup`/`subject_lookup` are the results
of `self._projects.get(project_name)` / `self._subjects.get(subject_name)`.
Returns the new state and the outcome: an early return while running is a
plain no-op, a missing selection raises the selection warning and leaves
the state untouched; otherwise the selected ids are stored, an `Idle`
machine is initialised to a fresh `Work` phase, and the countdown starts
(`current_start = now`, `is_running = True`).  The immediate `_tick()`
call at the end of `start` is the first element of the tick chain and is
modelled by the driver ticking first at the very instant `now`. -/
def start (st : PomodoroApp) (project_name subject_name : String)
    (project_lookup subject_lookup : Option Nat) (now : Nat) :
    PomodoroApp × Except SessionError Unit :=
  if st.is_running = true then (st, Except.ok ())
  else if project_name = "" ∨ subject_name = "" then
    (st, Except.error SessionError.selectionRequired)
  else
    let st1 := { st with current_project_id := project_lookup
                         current_subject_id := subject_lookup }
    let st2 :=
      if st1.session = Session.Idle then
        { st1 with session := Session.Work
                   remaining := ((st1.work_minutes * 60 : Nat) : Int)
                   completed_cycles := 0 }
      else st1
    ({ st2 with current_start := some now, is_running := true }, Except.ok ())

/-- `PomodoroApp.pause` (lines 1268-1290): a no-op when not running;
otherwise stops running, finalises a partial log through the shared
finalisation block, and clears `current_start`. -/
def pause (st : PomodoroApp) (now : Nat) : PomodoroApp :=
  if st.is_running = false then st
  else { ({ st with is_running := false }).finalize_log now with current_start := none }

/-- `PomodoroApp.reset_timer` (lines 1292-1303): stop running, force
`Idle`, zero the cycle counter, reload `remaining` from the configured
work duration and discard `current_start`; nothing is logged. -/
def reset_timer (st : PomodoroApp) : PomodoroApp :=
  { st with is_running := false
            session := Session.Idle
            completed_cycles := 0
            remaining := ((st.work_minutes * 60 : Nat) : Int)
            current_start := none }

/-- Driver: apply `tick` at the consecutive instants
`t0, t0 + 1, …, t0 + n - 1`, one tick per wall-clock second, exactly as
the `after(1000, self._tick)` chain does. -/
def runTicks (st : PomodoroApp) (t0 : Nat) : Nat → PomodoroApp
  | 0 => st
  | n + 1 => runTicks (st.tick t0) (t0 + 1) n

/-- Driver for one user gesture: press Start at instant `t0` (with the
"Default" project and "Geral" subject selected, ids 1 and 1) and let the
tick chain run `ticks` times.  The first tick fires at `t0` itself,
matching the `self._tick()` call at the end of `start`. -/
def startAndRun (st : PomodoroApp) (t0 ticks : Nat) : PomodoroApp :=
  runTicks (st.start "Default" "Geral" (some 1) (some 1) t0).1 t0 ticks

end PomodoroApp

/-- A work-interval log row of the C1 scenario: project 1, subject 1,
25 minutes from instant `s` to instant `e`. -/
def c1_log (s e : Nat) : LogEntry :=
  { project_id := 1, subject_id := 1, start_time := s, end_time := e, duration := 1500 }

/-- The C1 scenario: from the freshly initialised app (work=25, short=5,
long=15, cycles=4), press Start with project "Default" (id 1) and subject
"Geral" (id 1) selected and let each phase run to natural completion,
pressing Start again the moment each phase ends.  A work phase takes 1501
ticks (the immediate tick fired inside `start` plus one per second of
wall-clock time), a short break 301 ticks. -/
def c1_final : PomodoroApp :=
  ((((((PomodoroApp.init.startAndRun 0 1501).startAndRun 1500 301).startAndRun
      1800 1501).startAndRun 3300 301).startAndRun 3600 1501).startAndRun
      5100 301).startAndRun 5400 1501

/-- C1 scenario state after the first work phase completes at instant 1500. -/
def c1_s1 : PomodoroApp :=
  { PomodoroApp.init with
      session := Session.ShortBreak
      remaining := 300
      completed_cycles := 1
      current_project_id := some 1
      current_subject_id := some 1
      logs := [c1_log 0 1500] }

/-- C1 scenario state after the first short break completes at instant 1800. -/
def c1_s2 : PomodoroApp :=
  { c1_s1 with session := Session.Work, remaining := 1500 }

/-- C1 scenario state after the second work phase completes at instant 3300. -/
def c1_s3 : PomodoroApp :=
  { c1_s2 with
      session := Session.ShortBreak
      remaining := 300
      completed_cycles := 2
      logs := [c1_log 0 1500, c1_log 1800 3300] }

/-- C1 scenario state after the second short break completes at instant 3600. -/
def c1_s4 : PomodoroApp :=
  { c1_s3 with session := Session.Work, remaining := 1500 }

/-- C1 scenario state after the third work phase completes at instant 5100. -/
def c1_s5 : PomodoroApp :=
  { c1_s4 with
      session := Session.ShortBreak
      remaining := 300
      completed_cycles := 3
      logs := [c1_log 0 1500, c1_log 1800 3300, c1_log 3600 5100] }

/-- C1 scenario state after the third short break completes at instant 5400. -/
def c1_s6 : PomodoroApp :=
  { c1_s5 with session := Session.Work, remaining := 1500 }

/-- C1 scenario state after the fourth work phase completes at instant 6900. -/
def c1_s7 : PomodoroApp :=
  { c1_s6 with
      session := Session.LongBreak
      remaining := 900
      completed_cycles := 0
      logs := [c1_log 0 1500, c1_log 1800 3300, c1_log 3600 5100, c1_log 5400 6900] }

/-- A running state 600 seconds into a work phase that began at instant 0,
with project 1 and subject 1 selected; used to exercise the pause and
start theorems on concrete inputs. -/
def midWork : PomodoroApp :=
  { PomodoroApp.init with
      session := Session.Work
      remaining := 900
      current_start := some 0
      current_project_id := some 1
      current_subject_id := some 1
      is_running := true }

/-- A row of the `projects` table. -/
structure Project where
  id : Nat
  name : String
deriving DecidableEq, Repr

/-- A row of the `subjects` table (`UNIQUE (project_id, name)`, foreign
key to `projects`). -/
structure Subject where
  id : Nat
  project_id : Nat
  name : String
deriving DecidableEq, Repr

/-- A row of the `logs` table.  The ISO-8601 `start_time`/`end_time`
strings are modelled as a calendar-date ordinal plus a seconds-of-day
component; `start_date` is exactly SQLite's `DATE(start_time)`. -/
structure LogRow where
  id : Nat
  project_id : Nat
  subject_id : Nat
  start_date : Nat
  start_sec : Nat
  end_date : Nat
  end_sec : Nat
  duration : Int
deriving DecidableEq, Repr

/-- The SQLite store of `Database`: the three tables plus their
`AUTOINCREMENT` counters. -/
structure Database where
  projects : List Project
  subjects : List Subject
  logs : List LogRow
  next_project_id : Nat
  next_subject_id : Nat
  next_log_id : Nat
deriving DecidableEq, Repr

namespace Database

/-- The freshly created store: empty tables, `AUTOINCREMENT` counters at
1 (SQLite rowids start at 1). -/
def empty : Database where
  projects := []
  subjects := []
  logs := []
  next_project_id := 1
  next_subject_id := 1
  next_log_id := 1

/-- `Database.add_project` (lines 163-172): trim the name, raise
`ValueError` when it is empty, `INSERT OR IGNORE` a row with that name
(the `UNIQUE` constraint makes the insert a no-op when the name exists),
then `SELECT id ... WHERE name = ?` and return it.  The result pairs the
(possibly updated) store with the outcome; an error leaves the store
untouched.  The `none` fallback of the final lookup corresponds to
`row[0]` crashing on a missing row and is unreachable after the insert. -/
def add_project (db : Database) (name0 : String) : Database × Except DBError Nat :=
  let name := pyStrip name0
  if name = "" then (db, Except.error DBError.validation)
  else
    let db1 : Database :=
      match db.projects.find? (fun p => p.name == name) with
      | some _ => db
      | none =>
        { db with projects := db.projects ++ [{ id := db.next_project_id, name := name }]
                  next_project_id := db.next_project_id + 1 }
    match db1.projects.find? (fun p => p.name == name) with
    | some p => (db1, Except.ok p.id)
    | none => (db1, Except.error DBError.storage)

/-- `Database.add_subject` (lines 185-200): trim the name, raise
`ValueError` when empty; with `PRAGMA foreign_keys = ON` the insert
raises `sqlite3.IntegrityError` when `project_id` references no project
(the `OR IGNORE` clause does not cover foreign-key violations);
otherwise `INSERT OR IGNORE` under the `UNIQUE (project_id, name)`
constraint and return the id found by the final `SELECT`. -/
def add_subject (db : Database) (project_id : Nat) (name0 : String) :
    Database × Except DBError Nat :=
  let name := pyStrip name0
  if name = "" then (db, Except.error DBError.validation)
  else if ¬ (db.projects.any (fun p => p.id == project_id)) then
    (db, Except.error DBError.referential)
  else
    let db1 : Database :=
      match db.subjects.find? (fun s => s.project_id == project_id && s.name == name) with
      | some _ => db
      | none =>
        { db with
            subjects := db.subjects ++
              [{ id := db.next_subject_id, project_id := project_id, name := name }]
            next_subject_id := db.next_subject_id + 1 }
    match db1.subjects.find? (fun s => s.project_id == project_id && s.name == name) with
    | some s => (db1, Except.ok s.id)
    | none => (db1, Except.error DBError.storage)

/-- `Database.add_log` (lines 216-233): a plain `INSERT` whose two
foreign keys raise `sqlite3.IntegrityError` when the referenced project
or subject does not exist; on success the row is appended and
`cur.lastrowid` is returned. -/
def add_log (db : Database) (project_id subject_id : Nat)
    (start_date start_sec end_date end_sec : Nat) (duration : Int) :
    Database × Except DBError Nat :=
  if ¬ (db.projects.any (fun p => p.id == project_id)) then
    (db, Except.error DBError.referential)
  else if ¬ (db.subjects.any (fun s => s.id == subject_id)) then
    (db, Except.error DBError.referential)
  else
    ({ db with
         logs := db.logs ++
           [{ id := db.next_log_id, project_id := project_id, subject_id := subject_id,
              start_date := start_date, start_sec := start_sec,
              end_date := end_date, end_sec := end_sec, duration := duration }]
         next_log_id := db.next_log_id + 1 },
     Except.ok db.next_log_id)

/-- The `WHERE DATE(l.start_time) BETWEEN DATE(?) AND DATE(?)` filter
shared by the range queries: inclusive on both calendar-date bounds,
ignoring the time-of-day component. -/
def logs_in_range (db : Database) (start_d end_d : Nat) : List LogRow :=
  db.logs.filter (fun l => decide (start_d ≤ l.start_date ∧ l.start_date ≤ end_d))

/-- The `LEFT JOIN subjects s ON s.id = l.subject_id` name column:
`none` when the subject row no longer exists (SQL `NULL`). -/
def subject_name (db : Database) (sid : Nat) : Option String :=
  (db.subjects.find? (fun s => s.id == sid)).map Subject.name

/-- `SUM(l.duration)` over a list of rows. -/
def sumDurations (rows : List LogRow) : Int :=
  (rows.map LogRow.duration).sum

/-- `GROUP BY` skeleton shared by the two summary queries: the distinct
key values of the matching rows, paired with the summed duration of the
rows carrying that key. -/
def groupTotals {κ : Type} [DecidableEq κ] (key : LogRow → κ) (rows : List LogRow) :
    List (κ × Int) :=
  ((rows.map key).dedup).map
    (fun k => (k, sumDurations (rows.filter (fun l => decide (key l = k)))))

/-- `Database.summary_by_subject_range` (lines 292-307): over the logs in
the inclusive date range, group by the left-joined subject name, sum the
durations, and order by total duration descending. -/
def summary_by_subject_range (db : Database) (start_d end_d : Nat) :
    List (Option String × Int) :=
  List.insertionSort (fun a b => b.2 ≤ a.2)
    (groupTotals (fun l => db.subject_name l.subject_id) (db.logs_in_range start_d end_d))

/-- `Database.summary_by_day` (lines 309-321): over the logs in the
inclusive date range, group by `DATE(start_time)`, sum the durations, and
order by date ascending. -/
def summary_by_day (db : Database) (start_d end_d : Nat) : List (Nat × Int) :=
  List.insertionSort (fun a b => a.1 ≤ b.1)
    (groupTotals (fun l => l.start_date) (db.logs_in_range start_d end_d))

end Database

/-- A small concrete store used by the witnesses: one project "Default"
(id 1) with subject "Geral" (id 1) and two logs on days 10 and 12. -/
def sampleDB : Database :=
  { projects := [{ id := 1, name := "Default" }]
    subjects := [{ id := 1, project_id := 1, name := "Geral" }]
    logs := [{ id := 1, project_id := 1, subject_id := 1, start_date := 10, start_sec := 3600,
               end_date := 10, end_sec := 5100, duration := 1500 },
             { id := 2, project_id := 1, subject_id := 1, start_date := 12, start_sec := 100,
               end_date := 12, end_sec := 700, duration := 600 }]
    next_project_id := 2
    next_subject_id := 2
    next_log_id := 3 }

/-- Record eta for the `remaining` field: overwriting `remaining` with the
value it already has is the identity. -/
theorem PomodoroApp.set_remaining_self (st : PomodoroApp) (h : st.remaining = 0) :
    { st with remaining := 0 } = st := by
  cases st
  simp_all

/-- Draining a phase: from a running state with `remaining = k`, the tick
chain decrements once per second for `k` seconds and the `(k+1)`-st tick,
firing at instant `t0 + k`, finishes the session.  This is the wall-clock
accounting of `_tick`: the countdown that started at `t0` finishes exactly
`k` seconds later. -/
theorem PomodoroApp.runTicks_drain (k : Nat) :
    ∀ (st : PomodoroApp) (t0 : Nat), st.is_running = true → st.remaining = (k : Int) →
      PomodoroApp.runTicks st t0 (k + 1) =
        PomodoroApp.finish_session { st with remaining := 0 } (t0 + k) := by
  induction k with
  | zero =>
    intro st t0 hrun hrem
    have hrem0 : st.remaining = 0 := by simpa using hrem
    have ht : st.tick t0 = st.finish_session t0 := by
      simp [PomodoroApp.tick, hrun, hrem0]
    show st.tick t0 = _
    rw [ht, PomodoroApp.set_remaining_self st hrem0]
    norm_num
  | succ n ih =>
    intro st t0 hrun hrem
    have htick : st.tick t0 = { st with remaining := (n : Int) } := by
      have h1 : ¬ st.remaining ≤ 0 := by rw [hrem]; push_cast; omega
      have h2 : st.remaining - 1 = (n : Int) := by rw [hrem]; push_cast; ring
      simp [PomodoroApp.tick, hrun, h1, h2]
    show PomodoroApp.runTicks (st.tick t0) (t0 + 1) (n + 1) = _
    rw [htick, ih { st with remaining := (n : Int) } (t0 + 1) hrun rfl]
    have harg : t0 + 1 + n = t0 + (n + 1) := by omega
    rw [harg]

/-- Pressing Start and letting the countdown finish: if the state right
after `start` is running with `remaining = k`, then after `k + 1` ticks the
session has finished at instant `t0 + k`. -/
theorem PomodoroApp.startAndRun_drain (st : PomodoroApp) (t0 k : Nat)
    (h : ((st.start "Default" "Geral" (some 1) (some 1) t0).1).is_running = true)
    (hrem : ((st.start "Default" "Geral" (some 1) (some 1) t0).1).remaining = (k : Int)) :
    st.startAndRun t0 (k + 1) =
      PomodoroApp.finish_session
        { (st.start "Default" "Geral" (some 1) (some 1) t0).1 with remaining := 0 }
        (t0 + k) := by
  rw [PomodoroApp.startAndRun, PomodoroApp.runTicks_drain k _ t0 h hrem]

/-- `finalize_log` touches only the `logs` field: every other field of
the state is preserved. -/
theorem PomodoroApp.finalize_log_shape (st : PomodoroApp) (now : Nat) :
    ∃ ls, st.finalize_log now = { st with logs := ls } := by
  cases st with
  | mk wm sbm lbm cflb ses rem cc cst pid sid ir ls0 =>
    cases cst with
    | none => exact ⟨ls0, rfl⟩
    | some cs =>
      dsimp only [PomodoroApp.finalize_log]
      split_ifs with h1 h2
      · exact ⟨_, rfl⟩
      · exact ⟨ls0, rfl⟩
      · exact ⟨ls0, rfl⟩

/-- When the machine is in a `Work` phase with `current_start = cs`, a
truthy selection and positive elapsed time, `finalize_log` appends
exactly one log row covering `[cs, now)`. -/
theorem PomodoroApp.finalize_log_work (st : PomodoroApp) (now cs : Nat)
    (hcs : st.current_start = some cs) (hw : st.session = Session.Work)
    (hp : optTruthy st.current_project_id = true)
    (hs : optTruthy st.current_subject_id = true)
    (hd : 0 < (now : Int) - (cs : Int)) :
    st.finalize_log now = { st with logs := st.logs ++
      [{ project_id := st.current_project_id.getD 0
         subject_id := st.current_subject_id.getD 0
         start_time := cs
         end_time := now
         duration := (now : Int) - (cs : Int) }] } := by
  unfold PomodoroApp.finalize_log
  rw [hcs]
  simp [hw, hp, hs, hd]

/-- Outside the `Work` phase `finalize_log` writes nothing at all. -/
theorem PomodoroApp.finalize_log_not_work (st : PomodoroApp) (now : Nat)
    (h : st.session ≠ Session.Work) :
    st.finalize_log now = st := by
  unfold PomodoroApp.finalize_log
  cases hcs : st.current_start with
  | none => rfl
  | some cs => simp [h]

/-- C2: on every Work-phase completion `completed_work_cycles` is
incremented; when the incremented counter reaches `cyclesForLongBreak`
the next phase is `LongBreak` and the counter resets to 0, otherwise the
next phase is `ShortBreak`; and every `ShortBreak` or `LongBreak`
completion transitions to `Work` regardless of the cycle count, with
`remaining` recomputed from the configured duration of the new phase. -/
theorem c2_cycle_rule (st : PomodoroApp) (now : Nat) :
    (st.session = Session.Work →
      st.cycles_for_long_break ≤ st.completed_cycles + 1 →
      (st.finish_session now).session = Session.LongBreak ∧
      (st.finish_session now).completed_cycles = 0 ∧
      (st.finish_session now).remaining = ((st.long_break_minutes * 60 : Nat) : Int)) ∧
    (st.session = Session.Work →
      ¬ st.cycles_for_long_break ≤ st.completed_cycles + 1 →
      (st.finish_session now).session = Session.ShortBreak ∧
      (st.finish_session now).completed_cycles = st.completed_cycles + 1 ∧
      (st.finish_session now).remaining = ((st.short_break_minutes * 60 : Nat) : Int)) ∧
    (st.session = Session.ShortBreak ∨ st.session = Session.LongBreak →
      (st.finish_session now).session = Session.Work ∧
      (st.finish_session now).completed_cycles = st.completed_cycles ∧
      (st.finish_session now).remaining = ((st.work_minutes * 60 : Nat) : Int)) := by
  obtain ⟨ls, hls⟩ := PomodoroApp.finalize_log_shape { st with is_running := false } now
  have hfs : st.finish_session now =
      PomodoroApp.next_phase
        { st with is_running := false, logs := ls, current_start := none } := by
    unfold PomodoroApp.finish_session
    rw [hls]
  refine ⟨?_, ?_, ?_⟩
  · intro hw hc
    rw [hfs]
    simp [PomodoroApp.next_phase, hw, hc]
  · intro hw hc
    rw [hfs]
    simp [PomodoroApp.next_phase, hw, hc]
  · intro hb
    have hne : st.session ≠ Session.Work := by
      rcases hb with h | h <;> simp [h]
    rw [hfs]
    simp [PomodoroApp.next_phase, hne]

/-- Witness for C2: a concrete Work state with three completed cycles
(configuration `cyclesForLongBreak = 4`) finishing at instant 600 moves
to `LongBreak` with the counter reset and a 15-minute countdown. -/
theorem c2_cycle_rule_witness :
    ({ midWork with completed_cycles := 3 }.finish_session 600).session =
        Session.LongBreak ∧
    ({ midWork with completed_cycles := 3 }.finish_session 600).completed_cycles = 0 ∧
    ({ midWork with completed_cycles := 3 }.finish_session 600).remaining =
        ((15 * 60 : Nat) : Int) :=
  (c2_cycle_rule { midWork with completed_cycles := 3 } 600).1 rfl (by decide)

/-- C3: `pause()` while running in a Work phase with a truthy selection
and positive elapsed time appends exactly one log row whose duration is
the elapsed time, keeps the phase `Work`, leaves `remaining` untouched,
clears `current_start` and stops running; `pause()` during a break never
writes a log; `pause()` while not running is a complete no-op. -/
theorem c3_pause (st : PomodoroApp) (now cs : Nat) :
    (st.is_running = true → st.session = Session.Work → st.current_start = some cs →
      optTruthy st.current_project_id = true → optTruthy st.current_subject_id = true →
      0 < (now : Int) - (cs : Int) →
      (st.pause now).logs = st.logs ++
        [{ project_id := st.current_project_id.getD 0
           subject_id := st.current_subject_id.getD 0
           start_time := cs
           end_time := now
           duration := (now : Int) - (cs : Int) }] ∧
      (st.pause now).session = Session.Work ∧
      (st.pause now).remaining = st.remaining ∧
      (st.pause now).current_start = none ∧
      (st.pause now).is_running = false) ∧
    (st.is_running = true →
      (st.session = Session.ShortBreak ∨ st.session = Session.LongBreak) →
      (st.pause now).logs = st.logs) ∧
    (st.is_running = false → st.pause now = st) := by
  refine ⟨?_, ?_, ?_⟩
  · intro hr hw hcs hp hs hd
    have hpause : st.pause now =
        { ({ st with is_running := false }).finalize_log now with current_start := none } := by
      unfold PomodoroApp.pause
      rw [hr]
      simp
    have hfl := PomodoroApp.finalize_log_work { st with is_running := false } now cs
      hcs hw hp hs hd
    rw [hpause, hfl]
    exact ⟨rfl, hw, rfl, rfl, rfl⟩
  · intro hr hb
    have hne : st.session ≠ Session.Work := by
      rcases hb with h | h <;> simp [h]
    have hpause : st.pause now =
        { ({ st with is_running := false }).finalize_log now with current_start := none } := by
      unfold PomodoroApp.pause
      rw [hr]
      simp
    have hfl := PomodoroApp.finalize_log_not_work { st with is_running := false } now hne
    rw [hpause, hfl]
  · intro hr
    unfold PomodoroApp.pause
    rw [hr]
    simp

/-- Witness for C3: pausing `midWork` 600 seconds after its work phase
started logs one 600-second row and keeps the Work phase paused. -/
theorem c3_pause_witness :
    (midWork.pause 600).logs = midWork.logs ++
      [{ project_id := 1, subject_id := 1, start_time := 0, end_time := 600,
         duration := 600 }] ∧
    (midWork.pause 600).session = Session.Work ∧
    (midWork.pause 600).remaining = midWork.remaining ∧
    (midWork.pause 600).current_start = none ∧
    (midWork.pause 600).is_running = false :=
  (c3_pause midWork 600 0).1 rfl rfl rfl rfl rfl (by decide)

/-- C4: every `reset()` call forces `Idle`, stops the clock, zeroes the
cycle counter, reloads `remaining` with a fresh work duration, discards
`current_start`, and writes no log row for the discarded interval. -/
theorem c4_reset_discards_without_logging (st : PomodoroApp) :
    st.reset_timer.session = Session.Idle ∧
    st.reset_timer.is_running = false ∧
    st.reset_timer.completed_cycles = 0 ∧
    st.reset_timer.remaining = ((st.work_minutes * 60 : Nat) : Int) ∧
    st.reset_timer.current_start = none ∧
    st.reset_timer.logs = st.logs :=
  ⟨rfl, rfl, rfl, rfl, rfl, rfl⟩

/-- C9 counterexample: `midWork` is running and has no selection in the
comboboxes, yet the `start()` call returns silently (the `is_running`
early return precedes the selection check), so it does not fail with the
selection error — refuting the claim for calls made while running. -/
theorem c9_counterexample :
    midWork.is_running = true ∧
    (midWork.start "" "" none none 0).2 = Except.ok () ∧
    (midWork.start "" "" none none 0).1 = midWork ∧
    (Except.ok () : Except SessionError Unit) ≠
      Except.error SessionError.selectionRequired := by
  refine ⟨rfl, rfl, rfl, fun h => Except.noConfusion h⟩

/-- C9 (amended): every `start()` call made while not running without
both a project and a subject selected fails with the selection-required
error and leaves the session state unchanged. -/
theorem c9_start_selection_required (st : PomodoroApp)
    (project_name subject_name : String) (project_lookup subject_lookup : Option Nat)
    (now : Nat) (hrun : st.is_running = false)
    (hsel : project_name = "" ∨ subject_name = "") :
    st.start project_name subject_name project_lookup subject_lookup now =
      (st, Except.error SessionError.selectionRequired) := by
  unfold PomodoroApp.start
  rw [hrun]
  rw [if_neg (by simp), if_pos hsel]

/-- Witness for the amended C9: starting the fresh app with an empty
project combobox fails with the selection error and changes nothing. -/
theorem c9_start_selection_required_witness :
    PomodoroApp.init.start "" "Geral" none (some 1) 0 =
      (PomodoroApp.init, Except.error SessionError.selectionRequired) :=
  c9_start_selection_required PomodoroApp.init "" "Geral" none (some 1) 0 rfl
    (Or.inl rfl)

/-- C10: while `is_running` is true, `start()` is a complete no-op: the
returned state is the old state (every field, including the logs,
unchanged) and no error is raised. -/
theorem c10_start_running_noop (st : PomodoroApp)
    (project_name subject_name : String) (project_lookup subject_lookup : Option Nat)
    (now : Nat) (h : st.is_running = true) :
    st.start project_name subject_name project_lookup subject_lookup now =
      (st, Except.ok ()) := by
  unfold PomodoroApp.start
  rw [h]
  simp

/-- Witness for C10: calling `start` on the already-running `midWork`
state returns it unchanged. -/
theorem c10_start_running_noop_witness :
    midWork.start "Default" "Geral" (some 1) (some 1) 600 = (midWork, Except.ok ()) :=
  c10_start_running_noop midWork "Default" "Geral" (some 1) (some 1) 600 rfl

/-- C1: with work=25min, short break=5min, long break=15min, cycles=4,
starting from Idle with project "Default" and subject "Geral" selected,
four consecutive full Work completions (one tick per wall-clock second,
no pauses) produce exactly 4 log rows, each with duration 1500 seconds,
and after the fourth completion the phase is `LongBreak` with
`completed_cycles = 0`. -/
theorem c1_four_full_work_completions :
    c1_final.logs =
      [c1_log 0 1500, c1_log 1800 3300, c1_log 3600 5100, c1_log 5400 6900] ∧
    c1_final.logs.length = 4 ∧
    (∀ l ∈ c1_final.logs, l.duration = 1500) ∧
    c1_final.session = Session.LongBreak ∧
    c1_final.completed_cycles = 0 := by
  have e1 : PomodoroApp.init.startAndRun 0 1501 = c1_s1 := by
    show PomodoroApp.init.startAndRun 0 (1500 + 1) = c1_s1
    rw [PomodoroApp.startAndRun_drain PomodoroApp.init 0 1500 (by decide) (by decide)]
    decide
  have e2 : c1_s1.startAndRun 1500 301 = c1_s2 := by
    show c1_s1.startAndRun 1500 (300 + 1) = c1_s2
    rw [PomodoroApp.startAndRun_drain c1_s1 1500 300 (by decide) (by decide)]
    decide
  have e3 : c1_s2.startAndRun 1800 1501 = c1_s3 := by
    show c1_s2.startAndRun 1800 (1500 + 1) = c1_s3
    rw [PomodoroApp.startAndRun_drain c1_s2 1800 1500 (by decide) (by decide)]
    decide
  have e4 : c1_s3.startAndRun 3300 301 = c1_s4 := by
    show c1_s3.startAndRun 3300 (300 + 1) = c1_s4
    rw [PomodoroApp.startAndRun_drain c1_s3 3300 300 (by decide) (by decide)]
    decide
  have e5 : c1_s4.startAndRun 3600 1501 = c1_s5 := by
    show c1_s4.startAndRun 3600 (1500 + 1) = c1_s5
    rw [PomodoroApp.startAndRun_drain c1_s4 3600 1500 (by decide) (by decide)]
    decide
  have e6 : c1_s5.startAndRun 5100 301 = c1_s6 := by
    show c1_s5.startAndRun 5100 (300 + 1) = c1_s6
    rw [PomodoroApp.startAndRun_drain c1_s5 5100 300 (by decide) (by decide)]
    decide
  have e7 : c1_s6.startAndRun 5400 1501 = c1_s7 := by
    show c1_s6.startAndRun 5400 (1500 + 1) = c1_s7
    rw [PomodoroApp.startAndRun_drain c1_s6 5400 1500 (by decide) (by decide)]
    decide
  have hfin : c1_final = c1_s7 := by
    unfold c1_final
    rw [e1, e2, e3, e4, e5, e6, e7]
  rw [hfin]
  refine ⟨rfl, rfl, ?_, rfl, rfl⟩
  decide

/-- C8: a name that is empty after trimming makes both `add_project` and
`add_subject` fail with the validation error, leaving the store
unchanged (no project or subject row is created). -/
theorem c8_empty_name_validation (db : Database) (project_id : Nat) (name : String)
    (h : pyStrip name = "") :
    db.add_project name = (db, Except.error DBError.validation) ∧
    db.add_subject project_id name = (db, Except.error DBError.validation) := by
  constructor
  · simp [Database.add_project, h]
  · simp [Database.add_subject, h]

/-- Witness for C8: a whitespace-only name is rejected by both insertions
on the sample store, which is left untouched. -/
theorem c8_empty_name_validation_witness :
    sampleDB.add_project "   " = (sampleDB, Except.error DBError.validation) ∧
    sampleDB.add_subject 1 "   " = (sampleDB, Except.error DBError.validation) :=
  c8_empty_name_validation sampleDB 1 "   " (by decide)

/-- C7 counterexample: on the empty store, project id 1 references no
project, yet `add_subject 1 "   "` fails with the validation error (the
name check precedes the foreign-key check), not the referential error —
refuting the claim as stated for calls with an invalid name. -/
theorem c7_counterexample :
    Database.empty.projects.any (fun p => p.id == 1) = false ∧
    Database.empty.add_subject 1 "   " =
      (Database.empty, Except.error DBError.validation) ∧
    (Except.error DBError.validation : Except DBError Nat) ≠
      Except.error DBError.referential := by
  decide

/-- C7 (amended): an `add_subject` call with a valid (non-empty after
trimming) name whose project id references no existing project fails with
the referential error and creates nothing; an `add_log` call referencing
a nonexistent project or subject fails with the referential error and
creates nothing. -/
theorem c7_referential_integrity (db : Database) (project_id subject_id : Nat)
    (name : String) (sd ss ed es : Nat) (dur : Int) :
    (pyStrip name ≠ "" → ¬ db.projects.any (fun p => p.id == project_id) →
      db.add_subject project_id name = (db, Except.error DBError.referential)) ∧
    ((¬ db.projects.any (fun p => p.id == project_id) ∨
      ¬ db.subjects.any (fun s => s.id == subject_id)) →
      db.add_log project_id subject_id sd ss ed es dur =
        (db, Except.error DBError.referential)) := by
  constructor
  · intro hn hp
    simp [Database.add_subject, hn, hp]
  · intro h
    rcases h with h | h
    · simp [Database.add_log, h]
    · by_cases hp : db.projects.any (fun p => p.id == project_id)
      · simp [Database.add_log, hp, h]
      · simp [Database.add_log, hp]

/-- Witness for the amended C7: inserting a subject under the nonexistent
project 7 of the empty store, and a log for the nonexistent subject 99 of
the sample store, both fail referentially and change nothing. -/
theorem c7_referential_integrity_witness :
    Database.empty.add_subject 7 "Geral" =
      (Database.empty, Except.error DBError.referential) ∧
    sampleDB.add_log 1 99 10 0 10 600 600 =
      (sampleDB, Except.error DBError.referential) :=
  ⟨(c7_referential_integrity Database.empty 7 99 "Geral" 10 0 10 600 600).1
      (by decide) (by decide),
   (c7_referential_integrity sampleDB 1 99 "Geral" 10 0 10 600 600).2
      (Or.inr (by decide))⟩

/-- `add_project` when a project with the trimmed name already exists:
the store is unchanged and the existing id is returned. -/
theorem Database.add_project_of_found (db : Database) (name0 : String) (q : Project)
    (hn : ¬ pyStrip name0 = "")
    (hq : db.projects.find? (fun p => p.name == pyStrip name0) = some q) :
    db.add_project name0 = (db, Except.ok q.id) := by
  simp [Database.add_project, hn, hq]

/-- `add_project` on a fresh valid name inserts one row and returns its
id. -/
theorem Database.add_project_of_new (db : Database) (name0 : String)
    (hn : ¬ pyStrip name0 = "")
    (hnone : db.projects.find? (fun p => p.name == pyStrip name0) = none) :
    db.add_project name0 =
      ({ db with
           projects := db.projects ++ [{ id := db.next_project_id, name := pyStrip name0 }]
           next_project_id := db.next_project_id + 1 },
       Except.ok db.next_project_id) := by
  have happ : (db.projects ++
      [({ id := db.next_project_id, name := pyStrip name0 } : Project)]).find?
        (fun p => p.name == pyStrip name0) =
      some { id := db.next_project_id, name := pyStrip name0 } := by
    rw [List.find?_append, hnone]
    simp [List.find?]
  simp [Database.add_project, hn, hnone, happ]

/-- A valid `add_project` call always succeeds, and afterwards a project
with the trimmed name is present whose id is the returned one. -/
theorem Database.add_project_ok (db : Database) (name0 : String)
    (hn : ¬ pyStrip name0 = "") :
    ∃ db1 q, db.add_project name0 = (db1, Except.ok q.id) ∧
      db1.projects.find? (fun p => p.name == pyStrip name0) = some q := by
  rcases hfind : db.projects.find? (fun p => p.name == pyStrip name0) with _ | q
  · refine ⟨_, { id := db.next_project_id, name := pyStrip name0 },
      Database.add_project_of_new db name0 hn hfind, ?_⟩
    show (db.projects ++ [_]).find? _ = _
    rw [List.find?_append, hfind]
    simp [List.find?]
  · exact ⟨db, q, Database.add_project_of_found db name0 q hn hfind, hfind⟩

/-- `add_subject` when the project exists and a subject with the trimmed
name already exists under it: the store is unchanged and the existing id
is returned. -/
theorem Database.add_subject_of_found (db : Database) (project_id : Nat)
    (name0 : String) (q : Subject) (hn : ¬ pyStrip name0 = "")
    (hpid : db.projects.any (fun p => p.id == project_id) = true)
    (hq : db.subjects.find?
      (fun s => s.project_id == project_id && s.name == pyStrip name0) = some q) :
    db.add_subject project_id name0 = (db, Except.ok q.id) := by
  simp [Database.add_subject, hn, hpid, hq]

/-- A valid `add_subject` call under an existing project always succeeds,
afterwards a subject with that scoped name is present whose id is the
returned one, and the project table is untouched. -/
theorem Database.add_subject_ok (db : Database) (project_id : Nat) (name0 : String)
    (hn : ¬ pyStrip name0 = "")
    (hpid : db.projects.any (fun p => p.id == project_id) = true) :
    ∃ db1 q, db.add_subject project_id name0 = (db1, Except.ok q.id) ∧
      db1.subjects.find?
        (fun s => s.project_id == project_id && s.name == pyStrip name0) = some q ∧
      db1.projects = db.projects := by
  rcases hfind : db.subjects.find?
      (fun s => s.project_id == project_id && s.name == pyStrip name0) with _ | q
  · have happ : (db.subjects ++
        [({ id := db.next_subject_id, project_id := project_id,
            name := pyStrip name0 } : Subject)]).find?
          (fun s => s.project_id == project_id && s.name == pyStrip name0) =
        some { id := db.next_subject_id, project_id := project_id,
               name := pyStrip name0 } := by
      rw [List.find?_append, hfind]
      simp [List.find?]
    have hstep : db.add_subject project_id name0 =
        ({ db with
             subjects := db.subjects ++
               [{ id := db.next_subject_id, project_id := project_id,
                  name := pyStrip name0 }]
             next_subject_id := db.next_subject_id + 1 },
         Except.ok db.next_subject_id) := by
      simp [Database.add_subject, hn, hpid, hfind, happ]
    exact ⟨_, { id := db.next_subject_id, project_id := project_id,
                name := pyStrip name0 }, hstep, happ, rfl⟩
  · exact ⟨db, q, Database.add_subject_of_found db project_id name0 q hn hpid hfind,
      hfind, rfl⟩

/-- C5: calling `add_project` twice with the same valid name returns the
same identifier both times and the second call changes nothing; the same
idempotency holds for `add_subject` scoped to `(projectId, name)` under
an existing project. -/
theorem c5_add_idempotent (db : Database) (pname sname : String) (project_id : Nat) :
    (pyStrip pname ≠ "" →
      ((db.add_project pname).1.add_project pname).1 = (db.add_project pname).1 ∧
      ((db.add_project pname).1.add_project pname).2 = (db.add_project pname).2 ∧
      ∃ i, (db.add_project pname).2 = Except.ok i) ∧
    (pyStrip sname ≠ "" → db.projects.any (fun p => p.id == project_id) = true →
      ((db.add_subject project_id sname).1.add_subject project_id sname).1 =
        (db.add_subject project_id sname).1 ∧
      ((db.add_subject project_id sname).1.add_subject project_id sname).2 =
        (db.add_subject project_id sname).2 ∧
      ∃ i, (db.add_subject project_id sname).2 = Except.ok i) := by
  constructor
  · intro hn
    obtain ⟨db1, q, h1, hfind1⟩ := Database.add_project_ok db pname hn
    have h2 := Database.add_project_of_found db1 pname q hn hfind1
    refine ⟨?_, ?_, ⟨q.id, ?_⟩⟩ <;> simp [h1, h2]
  · intro hn hpid
    obtain ⟨db1, q, h1, hfind1, hproj⟩ :=
      Database.add_subject_ok db project_id sname hn hpid
    have hpid1 : db1.projects.any (fun p => p.id == project_id) = true := by
      rw [hproj]
      exact hpid
    have h2 := Database.add_subject_of_found db1 project_id sname q hn hpid1 hfind1
    refine ⟨?_, ?_, ⟨q.id, ?_⟩⟩ <;> simp [h1, h2]

/-- Witness for C5: creating "NewProj" twice on the sample store returns
the same id, and likewise "Algebra" twice under project 1. -/
theorem c5_add_idempotent_witness :
    ((sampleDB.add_project "NewProj").1.add_project "NewProj").2 =
      (sampleDB.add_project "NewProj").2 ∧
    ((sampleDB.add_subject 1 "Algebra").1.add_subject 1 "Algebra").2 =
      (sampleDB.add_subject 1 "Algebra").2 :=
  ⟨((c5_add_idempotent sampleDB "NewProj" "Algebra" 1).1 (by decide)).2.1,
   ((c5_add_idempotent sampleDB "NewProj" "Algebra" 1).2 (by decide) (by decide)).2.1⟩

/-- `GROUP BY` correctness: `(k, t)` is a row of `groupTotals key rows`
exactly when some row carries key `k` and `t` is the summed duration of
the rows carrying key `k`. -/
theorem Database.groupTotals_mem {κ : Type} [DecidableEq κ] (key : LogRow → κ)
    (rows : List LogRow) (k : κ) (t : Int) :
    (k, t) ∈ Database.groupTotals key rows ↔
      ((∃ l ∈ rows, key l = k) ∧
        t = Database.sumDurations (rows.filter (fun l => decide (key l = k)))) := by
  unfold Database.groupTotals
  constructor
  · intro h
    rcases List.mem_map.mp h with ⟨k', hk', heq⟩
    have hk : k' = k := congrArg Prod.fst heq
    have ht : t = Database.sumDurations
        (rows.filter (fun l => decide (key l = k'))) :=
      (congrArg Prod.snd heq).symm
    subst hk
    have : k' ∈ rows.map key := List.mem_dedup.mp hk'
    rcases List.mem_map.mp this with ⟨l, hl, hkl⟩
    exact ⟨⟨l, hl, hkl⟩, ht⟩
  · rintro ⟨⟨l, hl, hkl⟩, ht⟩
    refine List.mem_map.mpr ⟨k, ?_, ?_⟩
    · exact List.mem_dedup.mpr (List.mem_map.mpr ⟨l, hl, hkl⟩)
    · rw [ht]

/-- Membership in the range filter, spelled over the raw log table. -/
theorem Database.mem_logs_in_range (db : Database) (sd ed : Nat) (l : LogRow) :
    l ∈ db.logs_in_range sd ed ↔
      l ∈ db.logs ∧ (sd ≤ l.start_date ∧ l.start_date ≤ ed) := by
  unfold Database.logs_in_range
  simp [List.mem_filter]

/-- C6: over any inclusive date range, a pair appears in
`summary_by_subject_range` (resp. `summary_by_day`) exactly when some log
whose start calendar date lies within the bounds carries that subject
name (resp. start date), and its total is the sum of `duration` over
exactly the in-range logs with that key — so keys with zero matching
logs are absent; moreover the subject summary is sorted descending by
total duration and the day summary ascending by date. -/
theorem c6_summary_correctness (db : Database) (sd ed : Nat) :
    (∀ k t, (k, t) ∈ db.summary_by_subject_range sd ed ↔
      ((∃ l ∈ db.logs, (sd ≤ l.start_date ∧ l.start_date ≤ ed) ∧
          db.subject_name l.subject_id = k) ∧
        t = Database.sumDurations ((db.logs_in_range sd ed).filter
          (fun l => decide (db.subject_name l.subject_id = k))))) ∧
    List.Sorted (fun a b => b.2 ≤ a.2) (db.summary_by_subject_range sd ed) ∧
    (∀ k t, (k, t) ∈ db.summary_by_day sd ed ↔
      ((∃ l ∈ db.logs, (sd ≤ l.start_date ∧ l.start_date ≤ ed) ∧
          l.start_date = k) ∧
        t = Database.sumDurations ((db.logs_in_range sd ed).filter
          (fun l => decide (l.start_date = k))))) ∧
    List.Sorted (fun a b => a.1 ≤ b.1) (db.summary_by_day sd ed) := by
  refine ⟨?_, ?_, ?_, ?_⟩
  · intro k t
    unfold Database.summary_by_subject_range
    rw [List.mem_insertionSort, Database.groupTotals_mem]
    constructor
    · rintro ⟨⟨l, hl, hkl⟩, ht⟩
      have hm := (Database.mem_logs_in_range db sd ed l).mp hl
      exact ⟨⟨l, hm.1, hm.2, hkl⟩, ht⟩
    · rintro ⟨⟨l, hl, hrange, hkl⟩, ht⟩
      exact ⟨⟨l, (Database.mem_logs_in_range db sd ed l).mpr ⟨hl, hrange⟩, hkl⟩, ht⟩
  · unfold Database.summary_by_subject_range
    haveI : IsTotal (Option String × Int) (fun a b => b.2 ≤ a.2) :=
      ⟨fun a b => le_total b.2 a.2⟩
    haveI : IsTrans (Option String × Int) (fun a b => b.2 ≤ a.2) :=
      ⟨fun _ _ _ h1 h2 => le_trans h2 h1⟩
    exact List.sorted_insertionSort _ _
  · intro k t
    unfold Database.summary_by_day
    rw [List.mem_insertionSort, Database.groupTotals_mem]
    constructor
    · rintro ⟨⟨l, hl, hkl⟩, ht⟩
      have hm := (Database.mem_logs_in_range db sd ed l).mp hl
      exact ⟨⟨l, hm.1, hm.2, hkl⟩, ht⟩
    · rintro ⟨⟨l, hl, hrange, hkl⟩, ht⟩
      exact ⟨⟨l, (Database.mem_logs_in_range db sd ed l).mpr ⟨hl, hrange⟩, hkl⟩, ht⟩
  · unfold Database.summary_by_day
    haveI : IsTotal (Nat × Int) (fun a b => a.1 ≤ b.1) :=
      ⟨fun a b => le_total a.1 b.1⟩
    haveI : IsTrans (Nat × Int) (fun a b => a.1 ≤ b.1) :=
      ⟨fun _ _ _ h1 h2 => le_trans h1 h2⟩
    exact List.sorted_insertionSort _ _
